import Mathlib

/-!
# Verification of the Illustrator → Canva importer

Shallow embedding of `src/src/intents/design_editor/app.tsx` (Illustrator
Importer).  JavaScript numbers are modelled as rationals (`ℚ`), JS `Map`s as
association lists with first-match lookup, fallible values as `Option`, and
the `addPage` retry loop / interactive font resolution as explicit state
passing.  Path strings are modelled as the token arrays the source joins
with `" "` (`[ "M", x, y, "C", ... ].join(" ")`).
-/

namespace AdobeToCanva

/-- Opaque Canva font reference (`FontRef` from `@canva/asset`). -/
abbrev FontRef := String

/-- Opaque Canva image reference (`ImageRef` from `@canva/asset`). -/
abbrev ImageRef := String

/-- `type FontChoice = FontRef | "use_svg"` — either a concrete font or the
image-fallback sentinel. -/
inductive FontChoice where
  | font (ref : FontRef)
  | useSvg
deriving DecidableEq

/-- JS `Map.get` (keys are unique in the source's maps; first match models it). -/
def mapGet (m : List (String × α)) (k : String) : Option α :=
  List.lookup k m

/-- JS `Map.set`.  Prepending gives the same `get` observations as the
in-place overwrite the source performs. -/
def mapSet (m : List (String × α)) (k : String) (v : α) : List (String × α) :=
  (k, v) :: m

/-- JS `String.prototype.toLowerCase` (per-character lowering). -/
def jsToLower (s : String) : String :=
  String.mk (s.data.map Char.toLower)

/-- Character class `[\s]` of the source's regexes. -/
def isJsSpace (c : Char) : Bool := c.isWhitespace

/-- JS `String.prototype.trim`. -/
def jsTrim (s : String) : String :=
  String.mk (((s.data.dropWhile isJsSpace).reverse.dropWhile isJsSpace).reverse)

/-- Character class `[\s\-_]` used by `norm` / `stripStyle`. -/
def isNormStripped (c : Char) : Bool := isJsSpace c || c = '-' || c = '_'

/-- `function norm(s)`: lowercase, then delete every whitespace/hyphen/underscore
(`.replace(/[\s\-_]+/g, "")`). -/
def norm (s : String) : String :=
  String.mk ((jsToLower s).data.filter (fun c => !(isNormStripped c)))

/-- The style-token alternation of `stripStyle`'s first regex, in source order. -/
def styleTokens : List (List Char) :=
  (["bold", "italic", "light", "medium", "thin", "heavy", "regular", "semibold",
    "black", "condensed", "oblique", "book", "demi", "ultra", "extra",
    "narrow"]).map String.data

/-- One attempt of the alternation `(bold|italic|…)` at the head of `l`:
the first token (in source order) that is a prefix is consumed.  No token is
a prefix of another, so at most one can match here. -/
def matchStyleToken (l : List Char) : Option (List Char) :=
  styleTokens.findSome? (fun t => if t.isPrefixOf l then some (l.drop t.length) else none)

/-- Left-to-right global scan of `.replace(/[\s\-]*(bold|…)[\s\-]*/gi, " ")`.
The `[\s\-]*` context and the `" "` replacement are dropped here because the
second replace (`/[\s\-_]+/g → ""`) deletes every such character anyway, so
only the deletion of the matched style tokens is observable.  Fuel is the
input length (each step consumes at least one character). -/
def removeStyleTokensAux : Nat → List Char → List Char
  | 0, l => l
  | _ + 1, [] => []
  | fuel + 1, c :: cs =>
    match matchStyleToken (c :: cs) with
    | some rest => removeStyleTokensAux fuel rest
    | none => c :: removeStyleTokensAux fuel cs

/-- `function stripStyle(s)`: lowercase, remove style tokens, remove
`[\s\-_]` (after which the final `.trim()` is a no-op). -/
def stripStyle (s : String) : String :=
  String.mk ((removeStyleTokensAux (jsToLower s).data.length
    (jsToLower s).data).filter (fun c => !(isNormStripped c)))

/-! ## Shape Path Synthesizer (`generateShapePath`) -/

/-- Path commands admitted by the synthesizer ("move", "line",
"cubic-bezier", "close"). -/
inductive Cmd where
  | M | L | C | Z
deriving DecidableEq

/-- One token of the joined path string: a command letter or a number. -/
inductive Tok where
  | cmd (c : Cmd)
  | num (q : ℚ)
deriving DecidableEq

/-- `type ClipShape` discriminator. -/
inductive ClipShapeType where
  | ellipse | rect | unknown
deriving DecidableEq

/-- `type ClipShape = { type; cornerRadius? }`. -/
structure ClipShape where
  type : ClipShapeType
  cornerRadius : Option ℚ := none
deriving DecidableEq

/-- `const r2 = (v) => Math.round(v * 100) / 100` (JS `Math.round` rounds
half-up toward `+∞`, as does Mathlib's `round`). -/
def r2 (v : ℚ) : ℚ := (round (v * 100) : ℤ) / 100

/-- `const K = 0.5523` — circle control-point ratio. -/
def K : ℚ := 5523 / 10000

set_option maxHeartbeats 1000000 in
/-- `function generateShapePath(clipShape, w, h)`, returning the token list
of the joined path string (`null` ↦ `none`). -/
def generateShapePath (clipShape : Option ClipShape) (w h : ℚ) : Option (List Tok) :=
  match clipShape with
  | none => none
  | some cs =>
    match cs.type with
    | ClipShapeType.ellipse =>
      let cx := w / 2; let cy := h / 2
      let rx := w / 2; let ry := h / 2
      some [.cmd .M, .num (r2 cx), .num 0,
        .cmd .C, .num (r2 (cx + rx * K)), .num 0, .num (r2 w), .num (r2 (cy - ry * K)),
          .num (r2 w), .num (r2 cy),
        .cmd .C, .num (r2 w), .num (r2 (cy + ry * K)), .num (r2 (cx + rx * K)), .num (r2 h),
          .num (r2 cx), .num (r2 h),
        .cmd .C, .num (r2 (cx - rx * K)), .num (r2 h), .num 0, .num (r2 (cy + ry * K)),
          .num 0, .num (r2 cy),
        .cmd .C, .num 0, .num (r2 (cy - ry * K)), .num (r2 (cx - rx * K)), .num 0,
          .num (r2 cx), .num 0,
        .cmd .Z]
    | ClipShapeType.rect =>
      let cr := cs.cornerRadius.getD 0    -- `clipShape.cornerRadius || 0`
      if cr ≤ 0 then
        -- "M 0 0 L " + r2(w) + " 0 L " + r2(w) + " " + r2(h) + " L 0 " + r2(h) + " Z"
        some [.cmd .M, .num 0, .num 0, .cmd .L, .num (r2 w), .num 0,
          .cmd .L, .num (r2 w), .num (r2 h), .cmd .L, .num 0, .num (r2 h), .cmd .Z]
      else
        let rr := min cr (min (w / 2) (h / 2))   -- Math.min(cr, w / 2, h / 2)
        let kk := rr * K
        some [.cmd .M, .num (r2 rr), .num 0,
          .cmd .L, .num (r2 (w - rr)), .num 0,
          .cmd .C, .num (r2 (w - rr + kk)), .num 0, .num (r2 w), .num (r2 (rr - kk)),
            .num (r2 w), .num (r2 rr),
          .cmd .L, .num (r2 w), .num (r2 (h - rr)),
          .cmd .C, .num (r2 w), .num (r2 (h - rr + kk)), .num (r2 (w - rr + kk)), .num (r2 h),
            .num (r2 (w - rr)), .num (r2 h),
          .cmd .L, .num (r2 rr), .num (r2 h),
          .cmd .C, .num (r2 (rr - kk)), .num (r2 h), .num 0, .num (r2 (h - rr + kk)),
            .num 0, .num (r2 (h - rr)),
          .cmd .L, .num 0, .num (r2 rr),
          .cmd .C, .num 0, .num (r2 (rr - kk)), .num (r2 (rr - kk)), .num 0,
            .num (r2 rr), .num 0,
          .cmd .Z]
    | ClipShapeType.unknown => none

/-- `true` iff the token is the given command letter. -/
def isCmdTok (c : Cmd) : Tok → Bool
  | .cmd c' => c = c'
  | .num _ => false

/-- Number of occurrences of a command letter in a path token list. -/
def countCmd (c : Cmd) (l : List Tok) : Nat := l.countP (isCmdTok c)

/-! ## Data model (`TextData`, `LayoutObject`, `Layout`) -/

/-- `type TextData`. -/
structure TextData where
  content : String
  fontFamily : String
  fontPostScriptName : Option String := none
  fontSize : ℚ
  fontWeight : String
  fontStyle : String
  color : String
  alignment : String
  lineHeight : ℚ := 1
  letterSpacing : ℚ := 0
  textDecoration : String
deriving DecidableEq

/-- `type StrokeBounds`. -/
structure StrokeBounds where
  x : ℚ
  y : ℚ
  width : ℚ
  height : ℚ
deriving DecidableEq

/-- `LayoutObject.type` discriminator. -/
inductive ObjType where
  | svg | png | text | clipMask
deriving DecidableEq

/-- `type LayoutObject`.  `zIndex` and `opacity` are `Option` because the
source guards them with `??` / `!== undefined`. -/
structure LayoutObject where
  index : ℚ
  fileName : String
  contentFileName : Option String := none
  strokeFileName : Option String := none
  strokeBounds : Option StrokeBounds := none
  type : ObjType
  objectType : String := ""
  x : ℚ := 0
  y : ℚ := 0
  width : ℚ
  height : ℚ
  zIndex : Option ℚ := none
  opacity : Option ℚ := none
  textData : Option TextData := none
  textSvgFileName : Option String := none
  clipShape : Option ClipShape := none
deriving DecidableEq

/-- JS `a || b` on an optional string (`undefined` and `""` are falsy). -/
def jsOrOpt (a : Option String) (b : String) : String :=
  match a with
  | some s => if s = "" then b else s
  | none => b

/-- JS `a || b` on a string (`""` is falsy). -/
def jsOrStr (a b : String) : String := if a = "" then b else a

/-- JS truthiness filter for an optional string field (`undefined`/`""` ↦ `none`). -/
def jsStr (a : Option String) : Option String :=
  match a with
  | some s => if s = "" then none else some s
  | none => none

/-- `const FONT_WEIGHT_MAP` (note `black ↦ "heavy"`). -/
def FONT_WEIGHT_MAP : List (String × String) :=
  [("normal", "normal"), ("thin", "thin"), ("extralight", "extralight"),
   ("light", "light"), ("medium", "medium"), ("semibold", "semibold"),
   ("bold", "bold"), ("ultrabold", "ultrabold"), ("heavy", "heavy"), ("black", "heavy")]

/-- `const TEXT_ALIGN_MAP`. -/
def TEXT_ALIGN_MAP : List (String × String) :=
  [("left", "start"), ("center", "center"), ("right", "end"), ("justify", "justify")]

/-- `const TEXT_WIDTH_PADDING = 1.15`. -/
def TEXT_WIDTH_PADDING : ℚ := 115 / 100

/-! ## Scene elements -/

/-- The scene elements the compiler pushes into `elements` (fields as set by
the source; `text` carries no height, its `decoration`/`fontRef` are absent
in the no-font-no-SVG branch). -/
inductive Element where
  | image (ref : ImageRef) (top left width height : ℚ) (altText : String) (decorative : Bool)
  | text (children : List String) (top left : ℚ) (width : ℚ) (fontSize : ℚ) (color : String)
      (fontWeight : String) (fontStyle : String) (textAlign : String)
      (decoration : Option String) (fontRef : Option FontRef)
  | shape (paths : List Tok) (fillRef : ImageRef) (vbWidth vbHeight vbTop vbLeft : ℚ)
      (top left width height : ℚ)
  | group (children : List Element) (top left width height : ℚ)

/-- `fontSize: Math.max(1, Math.min(100, Math.round(td.fontSize)))`. -/
def clampedFontSize (td : TextData) : ℚ :=
  ((max 1 (min 100 (round td.fontSize)) : ℤ) : ℚ)

/-- `fontWeight: FONT_WEIGHT_MAP[td.fontWeight?.toLowerCase()] || "normal"`. -/
def mappedWeight (td : TextData) : String :=
  (mapGet FONT_WEIGHT_MAP (jsToLower td.fontWeight)).getD "normal"

/-- `fontStyle: td.fontStyle === "italic" ? "italic" : "normal"`. -/
def mappedStyle (td : TextData) : String :=
  if td.fontStyle = "italic" then "italic" else "normal"

/-- `textAlign: TEXT_ALIGN_MAP[td.alignment] || "start"`. -/
def mappedAlign (td : TextData) : String :=
  (mapGet TEXT_ALIGN_MAP td.alignment).getD "start"

/-- `decoration: td.textDecoration === "underline" ? "underline" : "none"`. -/
def mappedDecoration (td : TextData) : String :=
  if td.textDecoration = "underline" then "underline" else "none"

/-- The editable text element of the "font found / chosen" branch. -/
def textElementWithFont (obj : LayoutObject) (td : TextData) (fr : FontRef) : Element :=
  .text [td.content] obj.y obj.x (⌈obj.width * TEXT_WIDTH_PADDING⌉ : ℤ)
    (clampedFontSize td) (jsOrStr td.color "#000000")
    (mappedWeight td) (mappedStyle td) (mappedAlign td)
    (some (mappedDecoration td)) (some fr)

/-- The editable text element of the "neither font nor SVG" branch (no
`decoration`, no `fontRef` field in the source). -/
def textElementNoFont (obj : LayoutObject) (td : TextData) : Element :=
  .text [td.content] obj.y obj.x (⌈obj.width * TEXT_WIDTH_PADDING⌉ : ℤ)
    (clampedFontSize td) (jsOrStr td.color "#000000")
    (mappedWeight td) (mappedStyle td) (mappedAlign td)
    none none

/-- The `frameElement` shape built for a clipping mask (fill = content asset,
viewBox = element size). -/
def frameElement (obj : LayoutObject) (contentRef : ImageRef) (pathD : List Tok) : Element :=
  .shape pathD contentRef obj.width obj.height 0 0 obj.y obj.x obj.width obj.height

/-- `const strokeRef = obj.strokeFileName ? imageRefs.get(obj.strokeFileName) : undefined`. -/
def lookupStrokeRef (imageRefs : List (String × ImageRef)) (obj : LayoutObject) :
    Option ImageRef :=
  match jsStr obj.strokeFileName with
  | some s => mapGet imageRefs s
  | none => none

/-- Text branch of the compile loop (`obj.type === "text" && obj.textData`):
font found → editable text; else SVG fallback if uploaded; else best-effort
editable text.  Always produces an element. -/
def textBranch (resolvedFonts : List (String × FontChoice))
    (imageRefs : List (String × ImageRef)) (obj : LayoutObject) (td : TextData) : Element :=
  match mapGet resolvedFonts td.fontFamily with
  | some (.font fr) => textElementWithFont obj td fr
  | _ =>
    match jsStr obj.textSvgFileName >>= mapGet imageRefs with
    | some svgRef =>
      .image svgRef obj.y obj.x obj.width obj.height (td.content.take 30) false
    | none => textElementNoFont obj td

/-- Clip-mask branch once the content asset resolved and the path synthesized:
stroke + bounds → registered group; stroke only → same-box group; else the
bare frame. -/
def clipEmitted (imageRefs : List (String × ImageRef)) (obj : LayoutObject)
    (contentRef : ImageRef) (pathD : List Tok) : Element :=
  match lookupStrokeRef imageRefs obj, obj.strokeBounds with
  | some strokeRef, some sb =>
    .group [ .image strokeRef 0 0 sb.width sb.height "effects" true,
             .shape pathD contentRef obj.width obj.height 0 0
               (obj.y - sb.y) (obj.x - sb.x) obj.width obj.height ]
      sb.y sb.x sb.width sb.height
  | some strokeRef, none =>
    .group [ .shape pathD contentRef obj.width obj.height 0 0 0 0 obj.width obj.height,
             .image strokeRef 0 0 obj.width obj.height "stroke" true ]
      obj.y obj.x obj.width obj.height
  | none, _ => frameElement obj contentRef pathD

/-- The element (if any) the loop body emits for one object; `none` means the
object is skipped (`continue` before any push). -/
def emitElement (imageRefs : List (String × ImageRef))
    (resolvedFonts : List (String × FontChoice)) (obj : LayoutObject) : Option Element :=
  if obj.type = ObjType.clipMask then
    match mapGet imageRefs (jsOrOpt obj.contentFileName obj.fileName) with
    | none => none
    | some contentRef =>
      match generateShapePath obj.clipShape obj.width obj.height with
      | some pathD => some (clipEmitted imageRefs obj contentRef pathD)
      | none =>
        match mapGet imageRefs obj.fileName with
        | some fallbackRef =>
          some (.image fallbackRef obj.y obj.x obj.width obj.height "clipped" false)
        | none => none
  else
    match (if obj.type = ObjType.text then obj.textData else none) with
    | some td => some (textBranch resolvedFonts imageRefs obj td)
    | none =>
      match mapGet imageRefs obj.fileName with
      | none => none
      | some ref => some (.image ref obj.y obj.x obj.width obj.height obj.fileName false)

/-! ## Compile loop state (elements, opacityMap, elementIdx) -/

/-- `{ elementIndex, opacity }` recorded for the correction pass. -/
structure OpacityAssignment where
  elementIndex : Nat
  opacity : ℚ
deriving DecidableEq

/-- Mutable state of the STEP-3 loop. -/
structure CompState where
  elements : List Element
  opacityMap : List OpacityAssignment
  elementIdx : Nat

/-- `if (obj.opacity !== undefined && obj.opacity < 1) opacityMap.push({...})`. -/
def opacityEntry (obj : LayoutObject) (idx : Nat) : List OpacityAssignment :=
  match obj.opacity with
  | some o => if o < 1 then [⟨idx, o⟩] else []
  | none => []

/-- The accounting every push site performs: `elements.push(el)`, the
opacity record at the current counter, then `elementIdx++` (duplicated in
the source for the clip-mask branch and the shared tail). -/
def pushWithOpacity (obj : LayoutObject) (st : CompState) (el : Element) : CompState :=
  { elements := st.elements ++ [el],
    opacityMap := st.opacityMap ++ opacityEntry obj st.elementIdx,
    elementIdx := st.elementIdx + 1 }

/-- One iteration of the STEP-3 `for (const obj of sorted)` loop: a skipped
object (`continue`) leaves the state unchanged, an emitted one is pushed
with its opacity accounting. -/
def compileStep (imageRefs : List (String × ImageRef))
    (resolvedFonts : List (String × FontChoice)) (st : CompState)
    (obj : LayoutObject) : CompState :=
  match emitElement imageRefs resolvedFonts obj with
  | none => st
  | some el => pushWithOpacity obj st el

/-- The whole STEP-3 loop over the (sorted) object list. -/
def compileElements (imageRefs : List (String × ImageRef))
    (resolvedFonts : List (String × FontChoice)) (objs : List LayoutObject) : CompState :=
  objs.foldl (compileStep imageRefs resolvedFonts) ⟨[], [], 0⟩

/-- The assignment list described positionally: the k-th non-skipped object's
assignment (if its opacity is defined and `< 1`) carries index k. -/
def asgnSpecAux (imageRefs : List (String × ImageRef))
    (resolvedFonts : List (String × FontChoice)) :
    List LayoutObject → Nat → List OpacityAssignment
  | [], _ => []
  | o :: rest, k =>
    match emitElement imageRefs resolvedFonts o with
    | none => asgnSpecAux imageRefs resolvedFonts rest k
    | some _ => opacityEntry o k ++ asgnSpecAux imageRefs resolvedFonts rest (k + 1)

/-! ## Paint-order sort -/

/-- `(a.zIndex ?? a.index)` — the comparator key. -/
def jsKey (o : LayoutObject) : ℚ := o.zIndex.getD o.index

/-- `[...layout.objects].sort((a, b) => (a.zIndex ?? a.index) - (b.zIndex ?? b.index))`.
JS `Array.prototype.sort` is stable; a stable sort by a total preorder has a
unique result, modelled by insertion sort. -/
def sortObjects (objs : List LayoutObject) : List LayoutObject :=
  List.insertionSort (fun a b => jsKey a ≤ jsKey b) objs

/-! ## Font Resolution Engine (`findCanvaFont`, `resolveFontRef`) -/

/-- JS `hay.includes(needle)` — contiguous substring containment. -/
def jsIncludes (hay needle : List Char) : Bool :=
  match hay with
  | [] => needle.isEmpty
  | _ :: t => needle.isPrefixOf hay || jsIncludes t needle

/-- Tier 1: `rawC.has(lower)` / `rawC.get(lower)` with
`lower = fontFamily.toLowerCase().trim()`. -/
def tier1 (fontFamily : String) (rawC : List (String × FontRef)) : Option FontRef :=
  mapGet rawC (jsTrim (jsToLower fontFamily))

/-- Tier 2: lookup of `norm(fontFamily)` in the normalized cache. -/
def tier2 (fontFamily : String) (normC : List (String × FontRef)) : Option FontRef :=
  mapGet normC (norm fontFamily)

/-- Tier 3: `if (stripped && stripped !== normalized && normC.has(stripped))`. -/
def tier3 (fontFamily : String) (normC : List (String × FontRef)) : Option FontRef :=
  let stripped := stripStyle fontFamily
  if stripped ≠ "" ∧ stripped ≠ norm fontFamily then mapGet normC stripped else none

/-- The tier-4 test of one `rawC` entry: bidirectional substring containment
of normalized names, both sides `≥ 4` characters. -/
def tier4Entry (normalized : String) (e : String × FontRef) : Option FontRef :=
  let canvaNorm := norm e.1
  if 4 ≤ canvaNorm.length ∧ 4 ≤ normalized.length ∧
      (jsIncludes normalized.data canvaNorm.data ∨ jsIncludes canvaNorm.data normalized.data)
  then some e.2 else none

/-- Tier 4: first `rawC` entry passing the partial-containment test. -/
def tier4 (fontFamily : String) (rawC : List (String × FontRef)) : Option FontRef :=
  rawC.findSome? (tier4Entry (norm fontFamily))

/-- The tier-5 test of one `rawC` entry: containment of style-stripped names
(`canvaStripped` truthy and `≥ 4` characters). -/
def tier5Entry (stripped : String) (e : String × FontRef) : Option FontRef :=
  let canvaStripped := stripStyle e.1
  if canvaStripped ≠ "" ∧ 4 ≤ canvaStripped.length ∧
      (jsIncludes stripped.data canvaStripped.data ∨ jsIncludes canvaStripped.data stripped.data)
  then some e.2 else none

/-- Tier 5: stripped partial match, only when `stripped` is truthy and `≥ 4`
characters. -/
def tier5 (fontFamily : String) (rawC : List (String × FontRef)) : Option FontRef :=
  let stripped := stripStyle fontFamily
  if stripped ≠ "" ∧ 4 ≤ stripped.length then rawC.findSome? (tier5Entry stripped) else none

/-- `const findCanvaFont = (fontFamily, rawC, normC) => …`: the early-return
cascade of tiers 1–5, short-circuited to `undefined` by
`if (!fontFamily || rawC.size === 0)`. -/
def findCanvaFont (fontFamily : String) (rawC normC : List (String × FontRef)) :
    Option FontRef :=
  if fontFamily = "" ∨ rawC = [] then none
  else
    (tier1 fontFamily rawC).orElse fun _ =>
    (tier2 fontFamily normC).orElse fun _ =>
    (tier3 fontFamily normC).orElse fun _ =>
    (tier4 fontFamily rawC).orElse fun _ =>
    tier5 fontFamily rawC

/-- Outcome of one pending-font prompt: `handlePickFont` completing with a
font, its cancellation branch, `handleUseSvg`, or the `catch` branch of
`handlePickFont` when `requestFontSelection()` itself throws. -/
inductive Decision where
  | pick (ref : FontRef)
  | cancel
  | err
deriving DecidableEq

/-- What the prompt handlers do with a decision: a completed pick is cached
(key `fontName.toLowerCase()`) and resolved with the font; cancellation /
`handleUseSvg` cache and resolve `"use_svg"`; the picker-exception `catch`
resolves `"use_svg"` WITHOUT writing `userFontChoicesRef`
(app.tsx 284–286). -/
def applyDecision (fontFamily : String) (cache : List (String × FontChoice)) :
    Decision → FontChoice × List (String × FontChoice)
  | .pick r => (.font r, mapSet cache (jsToLower fontFamily) (.font r))
  | .cancel => (.useSvg, mapSet cache (jsToLower fontFamily) .useSvg)
  | .err => (.useSvg, cache)

/-- Result of one `resolveFontRef` call: the returned choice, the
user-choice cache afterwards, and whether an interactive prompt
(`askUserForFont`) was performed. -/
structure ResolveResult where
  choice : FontChoice
  cache : List (String × FontChoice)
  prompted : Bool
deriving DecidableEq

/-- `const resolveFontRef = async (fontFamily, rawC, normC) => …`:
auto match → user cache (`userFontChoicesRef`, key lowercased) → interactive
prompt, whose cache effect depends on how the prompt ends
(`applyDecision`). -/
def resolveFontRef (fontFamily : String) (rawC normC : List (String × FontRef))
    (cache : List (String × FontChoice)) (d : Decision) : ResolveResult :=
  match findCanvaFont fontFamily rawC normC with
  | some ref => ⟨.font ref, cache, false⟩
  | none =>
    match mapGet cache (jsToLower fontFamily) with
    | some c => ⟨c, cache, false⟩
    | none =>
      ⟨(applyDecision fontFamily cache d).1, (applyDecision fontFamily cache d).2, true⟩

/-! ## Page creation retry loop (STEP 4) -/

/-- Result of one `addPage` attempt: success or the stringified error. -/
def AttemptResult := Option String

/-- `s.includes("rate_limit") || s.includes("RATE_LIMITED")`. -/
def isRateLimitError (s : String) : Bool :=
  jsIncludes s.data "rate_limit".data || jsIncludes s.data "RATE_LIMITED".data

/-- Final state of the retry loop: the page was created, or an error was
(re)thrown out of the loop. -/
inductive RetryOutcome where
  | success
  | thrown (err : String)
deriving DecidableEq

/-- The `for (let att = 1; att <= 5; att++)` loop with
`let delay = 3000; … delay *= 2`: returns the number of attempts made, the
delays slept between attempts, and the outcome.  `attempts att` is the
result of the `att`-th `addPage` call; fuel (`6 - att` at entry) only
bounds the recursion and is never exhausted. -/
def retryAux (attempts : Nat → AttemptResult) :
    Nat → Nat → Nat → Nat × List Nat × RetryOutcome
  | _, att, 0 => (att - 1, [], .success)
  | delay, att, fuel + 1 =>
    match attempts att with
    | none => (att, [], .success)
    | some err =>
      if isRateLimitError err ∧ att < 5 then
        let r := retryAux attempts (2 * delay) (att + 1) fuel
        (r.1, delay :: r.2.1, r.2.2)
      else (att, [], .thrown err)

/-- The whole retry loop around `addPage` (base delay 3000 ms, 5 attempts). -/
def retryAddPage (attempts : Nat → AttemptResult) : Nat × List Nat × RetryOutcome :=
  retryAux attempts 3000 1 5

/-! ## Concrete fixtures used to instantiate the theorems -/

/-- A concrete `TextData` record ("Hello" in Roboto 12 bold). -/
def fixtureTD : TextData :=
  { content := "Hello", fontFamily := "Roboto", fontSize := 12, fontWeight := "bold",
    fontStyle := "normal", color := "", alignment := "left", textDecoration := "none" }

/-- A concrete text-typed layout object carrying `fixtureTD`. -/
def fixtureTextObj : LayoutObject :=
  { index := 0, fileName := "t.png", type := ObjType.text, width := 100, height := 20,
    textData := some fixtureTD }

/-- A resolved-fonts map binding "Roboto" to a concrete reference. -/
def fixtureFonts : List (String × FontChoice) :=
  [("Roboto", FontChoice.font "robotoRef")]

/-! ## Helper lemmas -/

/-- A successful alternation match leaves a suffix, hence a sublist. -/
theorem findSome?_drop_sublist : ∀ (ts : List (List Char)) (l r : List Char),
    ts.findSome? (fun t => if t.isPrefixOf l then some (l.drop t.length) else none) = some r →
    r.Sublist l := by
  intro ts
  induction ts with
  | nil => intro l r h; simp at h
  | cons t ts ih =>
    intro l r h
    rw [List.findSome?_cons] at h
    by_cases hp : t.isPrefixOf l
    · simp only [hp, if_true] at h
      cases h
      exact List.drop_sublist _ _
    · simp only [hp, if_neg, Bool.false_eq_true, not_false_eq_true, ite_false] at h
      exact ih l r h

/-- The style-token scan only deletes characters. -/
theorem removeStyleTokensAux_sublist :
    ∀ (fuel : Nat) (l : List Char), (removeStyleTokensAux fuel l).Sublist l := by
  intro fuel
  induction fuel with
  | zero => intro l; simp [removeStyleTokensAux]
  | succ n ih =>
    intro l
    match l with
    | [] => simp [removeStyleTokensAux]
    | c :: cs =>
      rw [removeStyleTokensAux]
      cases h : matchStyleToken (c :: cs) with
      | some rest => exact (ih rest).trans (findSome?_drop_sublist _ _ _ h)
      | none => exact (ih cs).cons₂ c

/-- Stripping style tokens never lengthens the normalized name. -/
theorem stripStyle_length_le_norm (s : String) :
    (stripStyle s).length ≤ (norm s).length := by
  unfold stripStyle norm
  exact ((removeStyleTokensAux_sublist _ _).filter _).length_le

/-- `findSome?` of a pointwise-`none` function is `none`. -/
theorem findSome?_eq_none_of {α β : Type} (f : α → Option β) (l : List α)
    (h : ∀ x ∈ l, f x = none) : l.findSome? f = none := by
  induction l with
  | nil => simp
  | cons a t ih =>
    rw [List.findSome?_cons, h a (List.mem_cons_self a t)]
    exact ih fun x hx => h x (List.mem_cons_of_mem a hx)

/-- C7: the substring-containment tiers (4 and 5) of `findCanvaFont` never
produce a match when either side's normalized (resp. style-stripped) name is
shorter than 4 characters: a tier-4 entry test fails whenever the family's
or the catalog entry's normalized name is short; a tier-5 entry test fails
for a short catalog stripped name, and tier 5 as a whole is `none` for a
short family stripped name; and for a family whose normalized form has fewer
than 4 characters, the result can only come from the exact, normalized, or
style-stripped equality tiers (1–3). -/
theorem substring_tiers_need_four_chars
    (fontFamily : String) (rawC normC : List (String × FontRef)) :
    (∀ e : String × FontRef,
        (norm fontFamily).length < 4 ∨ (norm e.1).length < 4 →
        tier4Entry (norm fontFamily) e = none) ∧
    (∀ e : String × FontRef, (stripStyle e.1).length < 4 →
        tier5Entry (stripStyle fontFamily) e = none) ∧
    ((stripStyle fontFamily).length < 4 → tier5 fontFamily rawC = none) ∧
    ((norm fontFamily).length < 4 →
        tier4 fontFamily rawC = none ∧
        tier5 fontFamily rawC = none ∧
        findCanvaFont fontFamily rawC normC =
          (if fontFamily = "" ∨ rawC = [] then none
           else (tier1 fontFamily rawC).orElse fun _ =>
                (tier2 fontFamily normC).orElse fun _ => tier3 fontFamily normC)) := by
  have entry4 : ∀ e : String × FontRef,
      (norm fontFamily).length < 4 ∨ (norm e.1).length < 4 →
      tier4Entry (norm fontFamily) e = none := by
    intro e hor
    unfold tier4Entry
    rw [if_neg]
    intro hc
    rcases hor with hf | he
    · exact absurd hc.2.1 (by omega)
    · exact absurd hc.1 (by omega)
  have entry5 : ∀ e : String × FontRef, (stripStyle e.1).length < 4 →
      tier5Entry (stripStyle fontFamily) e = none := by
    intro e he
    unfold tier5Entry
    rw [if_neg]
    intro hc
    exact absurd hc.2.1 (by omega)
  have whole5 : (stripStyle fontFamily).length < 4 → tier5 fontFamily rawC = none := by
    intro hs
    unfold tier5
    rw [if_neg]
    intro hc
    exact absurd hc.2 (by omega)
  refine ⟨entry4, entry5, whole5, ?_⟩
  intro h
  have h4 : tier4 fontFamily rawC = none :=
    findSome?_eq_none_of _ _ fun e _ => entry4 e (Or.inl h)
  have h5 : tier5 fontFamily rawC = none :=
    whole5 (lt_of_le_of_lt (stripStyle_length_le_norm fontFamily) h)
  refine ⟨h4, h5, ?_⟩
  unfold findCanvaFont
  rcases hc : decide (fontFamily = "" ∨ rawC = []) with _ | _
  · have hc' := of_decide_eq_false hc
    rw [if_neg hc', if_neg hc', h4, h5]
    cases tier1 fontFamily rawC <;> cases tier2 fontFamily normC <;>
      cases tier3 fontFamily normC <;> rfl
  · have hc' := of_decide_eq_true hc
    rw [if_pos hc', if_pos hc']

/-- C7 witness: the short catalog name "go" cannot substring-match the long
family "Montserrat" in tier 4 or 5, and the two-character family "Go"
cannot substring-match the catalog entry "gotham". -/
theorem substring_tiers_need_four_chars_witness :
    tier4Entry (norm "Montserrat") ("go", "goRef") = none ∧
    tier5Entry (stripStyle "Montserrat") ("go", "goRef") = none ∧
    tier4 "Go" [("gotham", "gothamRef")] = none ∧
    tier5 "Go" [("gotham", "gothamRef")] = none := by
  have h1 := substring_tiers_need_four_chars "Montserrat" [] []
  have h2 := substring_tiers_need_four_chars "Go" [("gotham", "gothamRef")] []
  have h2' := h2.2.2.2 (by decide)
  exact ⟨h1.1 ("go", "goRef") (Or.inr (by decide)), h1.2.1 ("go", "goRef") (by decide),
    h2'.1, h2'.2.1⟩

/-- C1 counterexample: with an empty family name (and everything else empty)
`resolveFontRef` does NOT return the `"use_svg"` sentinel without
interaction — it falls through to the interactive prompt and returns
whatever the user decides. -/
theorem empty_family_prompts_cex :
    (resolveFontRef "" [] [] [] (.pick "AnyFont")).prompted = true ∧
    (resolveFontRef "" [] [] [] (.pick "AnyFont")).choice ≠ FontChoice.useSvg ∧
    (resolveFontRef "Helvetica Now" [] [] [] (.pick "AnyFont")).prompted = true := by
  decide

/-- C1 amended: an empty family name or an empty catalog makes the automatic
search (`findCanvaFont`) fail, after which `resolveFontRef` returns the
cached user choice if present and otherwise performs an interactive
resolution (creating a pending font prompt) and returns the user's
decision. -/
theorem empty_family_or_catalog_resolution
    (fontFamily : String) (rawC normC : List (String × FontRef))
    (cache : List (String × FontChoice)) (d : Decision)
    (h : fontFamily = "" ∨ rawC = []) :
    findCanvaFont fontFamily rawC normC = none ∧
    resolveFontRef fontFamily rawC normC cache d =
      (match mapGet cache (jsToLower fontFamily) with
       | some c => ⟨c, cache, false⟩
       | none => ⟨(applyDecision fontFamily cache d).1,
           (applyDecision fontFamily cache d).2, true⟩) := by
  have hf : findCanvaFont fontFamily rawC normC = none := by
    unfold findCanvaFont
    rw [if_pos h]
  refine ⟨hf, ?_⟩
  unfold resolveFontRef
  rw [hf]

/-- C1 amended witness: the empty catalog sends "Futura" to the prompt. -/
theorem empty_family_or_catalog_resolution_witness :
    findCanvaFont "Futura" [] [("futura", "f")] = none ∧
    resolveFontRef "Futura" [] [("futura", "f")] [] Decision.cancel =
      ⟨FontChoice.useSvg, [("futura", FontChoice.useSvg)], true⟩ := by
  have h := empty_family_or_catalog_resolution "Futura" [] [("futura", "f")] []
    Decision.cancel (Or.inr rfl)
  exact ⟨h.1, h.2.trans (by decide)⟩

/-- C8 counterexample: when `requestFontSelection()` throws, `handlePickFont`'s
`catch` resolves `"use_svg"` WITHOUT writing the cache, so resolving the same
family again — same catalog, starting from the cache state the first
resolution left — prompts a second time, and can even return a different
`FontChoice`. -/
theorem resolveFontRef_second_prompt_cex :
    (resolveFontRef "Futura" [] [] [] Decision.err).choice = FontChoice.useSvg ∧
    (resolveFontRef "Futura" [] [] [] Decision.err).prompted = true ∧
    (resolveFontRef "Futura" [] [] [] Decision.err).cache = [] ∧
    (resolveFontRef "Futura" [] []
        (resolveFontRef "Futura" [] [] [] Decision.err).cache Decision.err).prompted = true ∧
    (resolveFontRef "Futura" [] []
        (resolveFontRef "Futura" [] [] [] Decision.err).cache
        (Decision.pick "Arial")).choice = FontChoice.font "Arial" := by
  decide

/-- C8 amended: font resolution is idempotent unless the first resolution
ended in the picker-exception path.  If the first prompt (when any) completed
or was cancelled (`d ≠ err`), the decision is cached before the resolution
completes, so a second resolution of the same family against the unchanged
catalog returns the same `FontChoice` with no second prompt and no cache
change.  On the exception path the resolution returns `"use_svg"` while
leaving the cache untouched (which is why a later resolution may prompt
again). -/
theorem resolveFontRef_idempotent_unless_picker_error
    (fontFamily : String) (rawC normC : List (String × FontRef))
    (cache : List (String × FontChoice)) (d d' : Decision)
    (hd : d ≠ Decision.err) :
    ((resolveFontRef fontFamily rawC normC
        (resolveFontRef fontFamily rawC normC cache d).cache d').choice =
      (resolveFontRef fontFamily rawC normC cache d).choice ∧
    (resolveFontRef fontFamily rawC normC
        (resolveFontRef fontFamily rawC normC cache d).cache d').prompted = false ∧
    (resolveFontRef fontFamily rawC normC
        (resolveFontRef fontFamily rawC normC cache d).cache d').cache =
      (resolveFontRef fontFamily rawC normC cache d).cache) ∧
    (resolveFontRef fontFamily rawC normC cache Decision.err).cache = cache ∧
    ((resolveFontRef fontFamily rawC normC cache Decision.err).prompted = true →
      (resolveFontRef fontFamily rawC normC cache Decision.err).choice =
        FontChoice.useSvg) := by
  unfold resolveFontRef
  cases hA : findCanvaFont fontFamily rawC normC with
  | some ref => exact ⟨⟨rfl, rfl, rfl⟩, rfl, fun h => absurd h (by simp)⟩
  | none =>
    cases hC : mapGet cache (jsToLower fontFamily) with
    | some c => rw [hC]; exact ⟨⟨rfl, rfl, rfl⟩, rfl, fun h => absurd h (by simp)⟩
    | none =>
      refine ⟨?_, rfl, fun _ => rfl⟩
      cases d with
      | err => exact absurd rfl hd
      | pick r =>
        have : mapGet (mapSet cache (jsToLower fontFamily) (FontChoice.font r))
            (jsToLower fontFamily) = some (FontChoice.font r) := by
          simp [mapGet, mapSet, List.lookup]
        simp only [applyDecision]
        rw [this]
        exact ⟨rfl, rfl, rfl⟩
      | cancel =>
        have : mapGet (mapSet cache (jsToLower fontFamily) FontChoice.useSvg)
            (jsToLower fontFamily) = some FontChoice.useSvg := by
          simp [mapGet, mapSet, List.lookup]
        simp only [applyDecision]
        rw [this]
        exact ⟨rfl, rfl, rfl⟩

/-- C8 amended witness: for "Futura" against an empty catalog, a cancelled
first prompt caches `"use_svg"`, so the second resolution returns the same
choice from the cache, without prompting and without changing it. -/
theorem resolveFontRef_idempotent_unless_picker_error_witness :
    (resolveFontRef "Futura" [] []
        (resolveFontRef "Futura" [] [] [] Decision.cancel).cache
        (Decision.pick "Arial")).choice =
      (resolveFontRef "Futura" [] [] [] Decision.cancel).choice ∧
    (resolveFontRef "Futura" [] []
        (resolveFontRef "Futura" [] [] [] Decision.cancel).cache
        (Decision.pick "Arial")).prompted = false ∧
    (resolveFontRef "Futura" [] []
        (resolveFontRef "Futura" [] [] [] Decision.cancel).cache
        (Decision.pick "Arial")).cache =
      (resolveFontRef "Futura" [] [] [] Decision.cancel).cache := by
  exact (resolveFontRef_idempotent_unless_picker_error "Futura" [] [] []
    Decision.cancel (Decision.pick "Arial") (by decide)).1

/-- C2 counterexample: a persistently rate-limited `addPage` makes 5 attempts
but sleeps only FOUR inter-attempt delays — base, 2×, 4×, 8× (3000, 6000,
12000, 24000 ms); there is no fifth 16×base (48000 ms) delay, the claimed
delay list is not the actual one. -/
theorem retry_backoff_cex :
    retryAddPage (fun _ => some "rate_limit") =
      (5, [3000, 6000, 12000, 24000], RetryOutcome.thrown "rate_limit") ∧
    ([3000, 6000, 12000, 24000] : List Nat) ≠ [3000, 6000, 12000, 24000, 48000] := by
  decide

/-- C2 amended: a page creation failing with a rate-limit-class error on
every attempt runs exactly 5 attempts with inter-attempt delays base, 2×,
4×, 8× base (base = 3000 ms) — four delays between five attempts — after
which the error is rethrown (fatal); an attempt failing with any
non-rate-limit error rethrows immediately, with no further attempt and no
further delay. -/
theorem retry_backoff_amended :
    retryAddPage (fun _ => some "rate_limit") =
      (5, [3000, 6000, 12000, 24000], RetryOutcome.thrown "rate_limit") ∧
    (∀ (attempts : Nat → AttemptResult) (delay att fuel : Nat) (err : String),
      attempts att = some err → isRateLimitError err = false →
      retryAux attempts delay att (fuel + 1) = (att, [], .thrown err)) := by
  refine ⟨by decide, ?_⟩
  intro attempts delay att fuel err h1 h2
  rw [retryAux, h1]
  simp only [h2, Bool.false_eq_true, false_and, if_false]

/-- C2 amended witness: an attempt that throws "boom" on attempt 1 is fatal
immediately (1 attempt, no delays). -/
theorem retry_backoff_amended_witness :
    retryAux (fun _ => some "boom") 3000 1 5 = (1, [], RetryOutcome.thrown "boom") := by
  exact retry_backoff_amended.2 (fun _ => some "boom") 3000 1 4 "boom" rfl (by decide)

/-- C4 counterexample: `cornerRadius = 0` satisfies the claim's bound
`radius ≤ min(w,h)/2`, but yields the plain rectangle — 3 line commands and
0 cubic-bezier commands, not 4 and 4. -/
theorem roundedRect_zero_radius_cex :
    generateShapePath (some ⟨ClipShapeType.rect, some 0⟩) 10 10 =
      some [.cmd .M, .num 0, .num 0, .cmd .L, .num 10, .num 0,
        .cmd .L, .num 10, .num 10, .cmd .L, .num 0, .num 10, .cmd .Z] ∧
    countCmd .L ((generateShapePath (some ⟨ClipShapeType.rect, some 0⟩) 10 10).getD []) = 3 ∧
    countCmd .C ((generateShapePath (some ⟨ClipShapeType.rect, some 0⟩) 10 10).getD []) = 0 ∧
    ((0 : ℚ) ≤ min 10 10 / 2) := by
  norm_num [generateShapePath, r2, round_eq, countCmd, isCmdTok,
    List.countP_cons, List.countP_nil]
  decide

/-- C4 amended: for a rounded-rect clip with `w, h > 0` and
`0 < cornerRadius ≤ min(w,h)/2`, the path has exactly one move, one close,
4 line and 4 cubic-bezier commands; the effective radius
`Math.min(cr, w/2, h/2)` is `cr` itself under that bound; a radius ≤ 0 or an
absent radius yields the plain (3-line) rectangle. -/
theorem roundedRect_path_counts (w h cr : ℚ) (hw : 0 < w) (hh : 0 < h)
    (hcr : 0 < cr) (hle : cr ≤ min w h / 2) :
    countCmd .M ((generateShapePath (some ⟨ClipShapeType.rect, some cr⟩) w h).getD []) = 1 ∧
    countCmd .Z ((generateShapePath (some ⟨ClipShapeType.rect, some cr⟩) w h).getD []) = 1 ∧
    countCmd .L ((generateShapePath (some ⟨ClipShapeType.rect, some cr⟩) w h).getD []) = 4 ∧
    countCmd .C ((generateShapePath (some ⟨ClipShapeType.rect, some cr⟩) w h).getD []) = 4 ∧
    min cr (min (w / 2) (h / 2)) = cr ∧
    (∀ cr' : ℚ, cr' ≤ 0 →
      generateShapePath (some ⟨ClipShapeType.rect, some cr'⟩) w h =
        some [.cmd .M, .num 0, .num 0, .cmd .L, .num (r2 w), .num 0,
          .cmd .L, .num (r2 w), .num (r2 h), .cmd .L, .num 0, .num (r2 h), .cmd .Z]) ∧
    generateShapePath (some ⟨ClipShapeType.rect, none⟩) w h =
      some [.cmd .M, .num 0, .num 0, .cmd .L, .num (r2 w), .num 0,
        .cmd .L, .num (r2 w), .num (r2 h), .cmd .L, .num 0, .num (r2 h), .cmd .Z] := by
  have hclamp : min cr (min (w / 2) (h / 2)) = cr := by
    have h1 : min w h ≤ w := min_le_left _ _
    have h2 : min w h ≤ h := min_le_right _ _
    have hw2 : cr ≤ w / 2 := by linarith
    have hh2 : cr ≤ h / 2 := by linarith
    exact min_eq_left (le_min hw2 hh2)
  have hcrle : ¬ (cr ≤ 0) := not_le.mpr hcr
  refine ⟨?_, ?_, ?_, ?_, hclamp, ?_, ?_⟩
  · simp [generateShapePath, hcrle, countCmd, isCmdTok, List.countP_cons, List.countP_nil]
  · simp [generateShapePath, hcrle, countCmd, isCmdTok, List.countP_cons, List.countP_nil]
  · simp [generateShapePath, hcrle, countCmd, isCmdTok, List.countP_cons, List.countP_nil]
  · simp [generateShapePath, hcrle, countCmd, isCmdTok, List.countP_cons, List.countP_nil]
  · intro cr' hcr'
    simp [generateShapePath, hcr']
  · simp [generateShapePath]

/-- C4 amended witness: a 10×10 rect with radius 3 produces 1 M, 1 Z, 4 L
and 4 C commands, radius unclamped. -/
theorem roundedRect_path_counts_witness :
    countCmd .M ((generateShapePath (some ⟨ClipShapeType.rect, some 3⟩) 10 10).getD []) = 1 ∧
    countCmd .Z ((generateShapePath (some ⟨ClipShapeType.rect, some 3⟩) 10 10).getD []) = 1 ∧
    countCmd .L ((generateShapePath (some ⟨ClipShapeType.rect, some 3⟩) 10 10).getD []) = 4 ∧
    countCmd .C ((generateShapePath (some ⟨ClipShapeType.rect, some 3⟩) 10 10).getD []) = 4 ∧
    min (3 : ℚ) (min (10 / 2) (10 / 2)) = 3 := by
  have h := roundedRect_path_counts 10 10 3 (by norm_num) (by norm_num) (by norm_num)
    (by norm_num)
  exact ⟨h.1, h.2.1, h.2.2.1, h.2.2.2.1, h.2.2.2.2.1⟩

/-- C9 counterexample: for the 100×100 ellipse, the negative-direction
control coordinates round to 22.39 (offset 27.61 from the 50 center), not
to the claimed 50 − 27.62 = 22.38: rounding 22.385 goes half-up.  The token
22.38 never occurs in the path. -/
theorem ellipse_golden_cex :
    generateShapePath (some ⟨ClipShapeType.ellipse, none⟩) 100 100 =
      some [.cmd .M, .num 50, .num 0,
        .cmd .C, .num (7762/100), .num 0, .num 100, .num (2239/100), .num 100, .num 50,
        .cmd .C, .num 100, .num (7762/100), .num (7762/100), .num 100, .num 50, .num 100,
        .cmd .C, .num (2239/100), .num 100, .num 0, .num (7762/100), .num 0, .num 50,
        .cmd .C, .num 0, .num (2239/100), .num (2239/100), .num 0, .num 50, .num 0,
        .cmd .Z] ∧
    Tok.num (2238/100) ∉
      (generateShapePath (some ⟨ClipShapeType.ellipse, none⟩) 100 100).getD [] ∧
    (50 : ℚ) - 2239/100 ≠ 2762/100 := by
  have hp : generateShapePath (some ⟨ClipShapeType.ellipse, none⟩) 100 100 =
      some [.cmd .M, .num 50, .num 0,
        .cmd .C, .num (7762/100), .num 0, .num 100, .num (2239/100), .num 100, .num 50,
        .cmd .C, .num 100, .num (7762/100), .num (7762/100), .num 100, .num 50, .num 100,
        .cmd .C, .num (2239/100), .num 100, .num 0, .num (7762/100), .num 0, .num 50,
        .cmd .C, .num 0, .num (2239/100), .num (2239/100), .num 0, .num 50, .num 0,
        .cmd .Z] := by
    norm_num [generateShapePath, r2, K, round_eq]
  refine ⟨hp, ?_, by norm_num⟩
  rw [hp]
  norm_num [List.mem_cons]
  decide

/-- C9 amended: the 100×100 ellipse path has exactly one move, four cubic
segments and one close and no line commands; its control coordinates are
the rationals `r2(50 ± 50·0.5523)`: 77.62 on the positive side (offset
27.62) but 22.39 on the negative side (offset 27.61), since `r2` rounds
22.385 half-up. -/
theorem ellipse_path_golden :
    countCmd .M ((generateShapePath (some ⟨ClipShapeType.ellipse, none⟩) 100 100).getD []) = 1 ∧
    countCmd .C ((generateShapePath (some ⟨ClipShapeType.ellipse, none⟩) 100 100).getD []) = 4 ∧
    countCmd .Z ((generateShapePath (some ⟨ClipShapeType.ellipse, none⟩) 100 100).getD []) = 1 ∧
    countCmd .L ((generateShapePath (some ⟨ClipShapeType.ellipse, none⟩) 100 100).getD []) = 0 ∧
    r2 (50 + 50 * K) = 7762/100 ∧
    r2 (50 - 50 * K) = 2239/100 ∧
    Tok.num (7762/100) ∈
      (generateShapePath (some ⟨ClipShapeType.ellipse, none⟩) 100 100).getD [] ∧
    Tok.num (2239/100) ∈
      (generateShapePath (some ⟨ClipShapeType.ellipse, none⟩) 100 100).getD [] := by
  have hp : generateShapePath (some ⟨ClipShapeType.ellipse, none⟩) 100 100 =
      some [.cmd .M, .num 50, .num 0,
        .cmd .C, .num (7762/100), .num 0, .num 100, .num (2239/100), .num 100, .num 50,
        .cmd .C, .num 100, .num (7762/100), .num (7762/100), .num 100, .num 50, .num 100,
        .cmd .C, .num (2239/100), .num 100, .num 0, .num (7762/100), .num 0, .num 50,
        .cmd .C, .num 0, .num (2239/100), .num (2239/100), .num 0, .num 50, .num 0,
        .cmd .Z] := by
    norm_num [generateShapePath, r2, K, round_eq]
  rw [hp]
  refine ⟨?_, ?_, ?_, ?_, ?_, ?_, ?_, ?_⟩
  · simp [countCmd, isCmdTok, List.countP_cons, List.countP_nil]
  · simp [countCmd, isCmdTok, List.countP_cons, List.countP_nil]
  · simp [countCmd, isCmdTok, List.countP_cons, List.countP_nil]
  · simp [countCmd, isCmdTok, List.countP_cons, List.countP_nil]
  · norm_num [r2, K, round_eq]
  · norm_num [r2, K, round_eq]
  · norm_num [List.mem_cons]
  · norm_num [List.mem_cons]

/-- One loop iteration either leaves the state untouched (skip) or appends
the element, records the opacity at the current counter, and increments. -/
theorem compileStep_eq (ir : List (String × ImageRef))
    (rf : List (String × FontChoice)) (st : CompState) (obj : LayoutObject) :
    compileStep ir rf st obj =
      (match emitElement ir rf obj with
       | none => st
       | some el => pushWithOpacity obj st el) := rfl

/-- Characterization of the whole STEP-3 fold from an arbitrary start state:
emitted elements are the `filterMap` of the per-object emission, assignments
carry the positions the non-skipped objects occupy, and the counter advances
exactly by the number of emitted elements. -/
theorem compileFold_spec (ir : List (String × ImageRef))
    (rf : List (String × FontChoice)) :
    ∀ (objs : List LayoutObject) (st : CompState),
      objs.foldl (compileStep ir rf) st =
        ⟨st.elements ++ objs.filterMap (emitElement ir rf),
         st.opacityMap ++ asgnSpecAux ir rf objs st.elementIdx,
         st.elementIdx + (objs.filterMap (emitElement ir rf)).length⟩ := by
  intro objs
  induction objs with
  | nil =>
    intro st
    cases st
    simp [asgnSpecAux]
  | cons o rest ih =>
    intro st
    rw [List.foldl_cons, compileStep_eq]
    cases he : emitElement ir rf o with
    | none =>
      rw [ih st]
      simp [List.filterMap_cons, he, asgnSpecAux]
    | some el =>
      rw [ih (pushWithOpacity o st el)]
      simp only [pushWithOpacity, List.filterMap_cons, he, asgnSpecAux, CompState.mk.injEq]
      refine ⟨?_, ?_, ?_⟩
      · simp
      · simp [List.append_assoc]
      · simp only [List.length_cons]
        omega

/-- C3: for every compilation run, the recorded `OpacityAssignment` list is
exactly the positionally-indexed list of non-skipped objects with defined
opacity `< 1` (`asgnSpecAux … 0`), the emitted elements are the `filterMap`
of per-object emission (skipped objects contribute nothing), and the
counter ends equal to the number of emitted elements — so each
`elementIndex` is the position of its object's element in the submitted
sequence. -/
theorem opacity_indices_lockstep (ir : List (String × ImageRef))
    (rf : List (String × FontChoice)) (objs : List LayoutObject) :
    (compileElements ir rf objs).elements = objs.filterMap (emitElement ir rf) ∧
    (compileElements ir rf objs).opacityMap = asgnSpecAux ir rf objs 0 ∧
    (compileElements ir rf objs).elementIdx =
      (compileElements ir rf objs).elements.length := by
  unfold compileElements
  rw [compileFold_spec ir rf objs ⟨[], [], 0⟩]
  simp

/-! ## C5: paint-order sort -/

/-- Inserting an object whose key equals `k` puts it in front of every
later-inserted object with the same key (stability of one insertion). -/
theorem filter_orderedInsert_key_eq (k : ℚ) (a : LayoutObject)
    (l : List LayoutObject) (ha : jsKey a = k) :
    (List.orderedInsert (fun x y => jsKey x ≤ jsKey y) a l).filter
        (fun o => decide (jsKey o = k)) =
      a :: l.filter (fun o => decide (jsKey o = k)) := by
  induction l with
  | nil => simp [List.orderedInsert, ha]
  | cons b t ih =>
    rw [List.orderedInsert]
    by_cases hle : jsKey a ≤ jsKey b
    · rw [if_pos hle]
      simp [List.filter_cons, ha]
    · rw [if_neg hle]
      have hb : ¬ (jsKey b = k) := by
        intro hbk
        exact hle (le_of_eq (by rw [ha, hbk]))
      rw [List.filter_cons]
      simp [hb, ih]

/-- Inserting an object whose key differs from `k` does not disturb the
`k`-keyed sublist. -/
theorem filter_orderedInsert_key_ne (k : ℚ) (a : LayoutObject)
    (l : List LayoutObject) (ha : ¬ (jsKey a = k)) :
    (List.orderedInsert (fun x y => jsKey x ≤ jsKey y) a l).filter
        (fun o => decide (jsKey o = k)) =
      l.filter (fun o => decide (jsKey o = k)) := by
  induction l with
  | nil => simp [List.orderedInsert, ha]
  | cons b t ih =>
    rw [List.orderedInsert]
    by_cases hle : jsKey a ≤ jsKey b
    · rw [if_pos hle]
      simp [List.filter_cons, ha]
    · rw [if_neg hle]
      rw [List.filter_cons, List.filter_cons]
      by_cases hb : jsKey b = k <;> simp [hb, ih]

/-- Stability: sorting preserves the relative order of objects sharing any
key value. -/
theorem filter_sortObjects_key (k : ℚ) :
    ∀ objs : List LayoutObject,
      (sortObjects objs).filter (fun o => decide (jsKey o = k)) =
        objs.filter (fun o => decide (jsKey o = k)) := by
  intro objs
  induction objs with
  | nil => rfl
  | cons a t ih =>
    unfold sortObjects at *
    rw [List.insertionSort]
    by_cases ha : jsKey a = k
    · rw [filter_orderedInsert_key_eq k a _ ha, ih, List.filter_cons]
      simp [ha]
    · rw [filter_orderedInsert_key_ne k a _ ha, ih, List.filter_cons]
      simp [ha]

/-- C5: the compiler's sort is ascending in `(zIndex ?? index)`, is a
permutation of the input, is stable (objects with equal keys keep their
original relative order), and on the spec's example — zIndexes `[3,1,2]` at
original indices `[0,1,2]` — produces the order `index 1, index 2,
index 0`. -/
theorem paint_order_sort :
    (∀ objs : List LayoutObject, (sortObjects objs).Perm objs) ∧
    (∀ objs : List LayoutObject,
        (sortObjects objs).Pairwise (fun a b => jsKey a ≤ jsKey b)) ∧
    (∀ (k : ℚ) (objs : List LayoutObject),
        (sortObjects objs).filter (fun o => decide (jsKey o = k)) =
          objs.filter (fun o => decide (jsKey o = k))) ∧
    sortObjects
      [{ index := 0, fileName := "a.png", type := ObjType.png, width := 1, height := 1,
          zIndex := some 3 },
       { index := 1, fileName := "b.png", type := ObjType.png, width := 1, height := 1,
          zIndex := some 1 },
       { index := 2, fileName := "c.png", type := ObjType.png, width := 1, height := 1,
          zIndex := some 2 }] =
      [{ index := 1, fileName := "b.png", type := ObjType.png, width := 1, height := 1,
          zIndex := some 1 },
       { index := 2, fileName := "c.png", type := ObjType.png, width := 1, height := 1,
          zIndex := some 2 },
       { index := 0, fileName := "a.png", type := ObjType.png, width := 1, height := 1,
          zIndex := some 3 }] := by
  haveI : IsTotal LayoutObject (fun a b => jsKey a ≤ jsKey b) := ⟨fun a b => le_total _ _⟩
  haveI : IsTrans LayoutObject (fun a b => jsKey a ≤ jsKey b) :=
    ⟨fun _ _ _ hab hbc => le_trans hab hbc⟩
  refine ⟨?_, ?_, ?_, ?_⟩
  · intro objs
    exact List.perm_insertionSort _ objs
  · intro objs
    exact List.sorted_insertionSort _ objs
  · intro k objs
    exact filter_sortObjects_key k objs
  · simp [sortObjects, List.insertionSort, List.orderedInsert, jsKey]
    norm_num

/-! ## C6 and C10: text objects -/

/-- C6: a text object carrying `textData` is never skipped — the compiler
always emits exactly one element for it: the editable text element
(`textElementWithFont`, content verbatim, width ⌈w·1.15⌉, font size
rounded-then-clamped to [1,100], mapped weight/alignment with neutral
defaults, color defaulting to black) when a concrete font reference is
resolved; the editable `textElementNoFont` when no concrete font is
resolved and no uploaded text-SVG asset exists; and the non-editable image
element at the object's geometry when the resolved choice is the sentinel
and the text-SVG asset was uploaded. -/
theorem text_objects_always_emit (ir : List (String × ImageRef))
    (rf : List (String × FontChoice)) (obj : LayoutObject) (td : TextData)
    (hty : obj.type = ObjType.text) (htd : obj.textData = some td) :
    emitElement ir rf obj = some (textBranch rf ir obj td) ∧
    (∀ fr : FontRef, mapGet rf td.fontFamily = some (.font fr) →
        textBranch rf ir obj td = textElementWithFont obj td fr) ∧
    ((∀ fr : FontRef, mapGet rf td.fontFamily ≠ some (.font fr)) →
        (jsStr obj.textSvgFileName >>= mapGet ir) = none →
        textBranch rf ir obj td = textElementNoFont obj td) ∧
    (∀ (f : String) (svgRef : ImageRef),
        mapGet rf td.fontFamily = some FontChoice.useSvg →
        jsStr obj.textSvgFileName = some f → mapGet ir f = some svgRef →
        textBranch rf ir obj td =
          .image svgRef obj.y obj.x obj.width obj.height (td.content.take 30) false) := by
  refine ⟨?_, ?_, ?_, ?_⟩
  · unfold emitElement
    rw [hty]
    simp [htd]
  · intro fr hfr
    unfold textBranch
    rw [hfr]
  · intro hnofont hnosvg
    unfold textBranch
    cases hm : mapGet rf td.fontFamily with
    | none => rw [hnosvg]
    | some c =>
      cases c with
      | font fr => exact absurd hm (hnofont fr)
      | useSvg => rw [hnosvg]
  · intro f svgRef hm hf hsvg
    unfold textBranch
    rw [hm, hf]
    simp [hsvg]

/-- C6 witness: a concrete text object with a resolved "Roboto" font emits
the editable text element. -/
theorem text_objects_always_emit_witness :
    emitElement [] fixtureFonts fixtureTextObj =
      some (textBranch fixtureFonts [] fixtureTextObj fixtureTD) ∧
    textBranch fixtureFonts [] fixtureTextObj fixtureTD =
      textElementWithFont fixtureTextObj fixtureTD "robotoRef" := by
  have h := text_objects_always_emit [] fixtureFonts fixtureTextObj fixtureTD rfl rfl
  exact ⟨h.1, h.2.1 "robotoRef" (by decide)⟩

/-- C10: a text-typed object with no `textData` record falls into the
plain-image branch — it emits the image element for its `fileName`'s upload,
and when that upload is missing it is skipped entirely: no element, no
assignment, counter untouched (its textual content is dropped). -/
theorem textless_text_object_plain_image (ir : List (String × ImageRef))
    (rf : List (String × FontChoice)) (st : CompState) (obj : LayoutObject)
    (hty : obj.type = ObjType.text) (htd : obj.textData = none) :
    emitElement ir rf obj =
      (mapGet ir obj.fileName).map
        (fun ref => Element.image ref obj.y obj.x obj.width obj.height obj.fileName false) ∧
    (mapGet ir obj.fileName = none → compileStep ir rf st obj = st) := by
  have he : emitElement ir rf obj =
      (mapGet ir obj.fileName).map
        (fun ref => Element.image ref obj.y obj.x obj.width obj.height obj.fileName false) := by
    unfold emitElement
    rw [hty]
    simp [htd]
    cases mapGet ir obj.fileName <;> rfl
  refine ⟨he, ?_⟩
  intro hmiss
  rw [compileStep_eq, he, hmiss]
  rfl

/-- C10 witness: a textless text object whose upload is missing is skipped,
leaving the compile state untouched. -/
theorem textless_text_object_plain_image_witness :
    emitElement [] []
        { index := 0, fileName := "ghost.png", type := ObjType.text,
          width := 10, height := 10 } =
      (mapGet ([] : List (String × ImageRef)) "ghost.png").map
        (fun ref => Element.image ref 0 0 10 10 "ghost.png" false) ∧
    compileStep [] [] ⟨[], [], 0⟩
        { index := 0, fileName := "ghost.png", type := ObjType.text,
          width := 10, height := 10 } = ⟨[], [], 0⟩ := by
  have h := textless_text_object_plain_image [] [] ⟨[], [], 0⟩
    { index := 0, fileName := "ghost.png", type := ObjType.text,
      width := 10, height := 10 } rfl rfl
  exact ⟨h.1, h.2 rfl⟩

end AdobeToCanva
